import Mathlib

/-
Verification of the avatar-creation pipeline
(src/data/avatar_creation_pipeline.py) against its specification.

The pipeline is shallowly embedded: external effects (PDF text
extraction, chat-completion calls, the image-generation HTTP call,
environment variables, the configuration file) are oracles passed in as
explicit parameters, and every run returns the result envelope together
with a trace of the external calls it performed. Python strings are
modelled as Lean strings with code-point (List Char) semantics; the two
float temperatures are carried as fixed-point tenths because the code
only passes them through and never computes with them.
-/

namespace AvatarPipeline

/-! ## Python string primitives, modelled over code points -/

/-- Python `str.lower` on one code point (ASCII case folding, which is all
the filenames here use). -/
def lowerChar (c : Char) : Char :=
  if 65 ≤ c.toNat ∧ c.toNat ≤ 90 then Char.ofNat (c.toNat + 32) else c

/-- Python `str.lower`. -/
def pyLower (s : String) : String := ⟨s.data.map lowerChar⟩

/-- Python `str.endswith`. -/
def pyEndsWith (s suf : String) : Bool :=
  decide ((s.data.reverse.take suf.data.length).reverse = suf.data)

/-- Python whitespace for `str.strip`. -/
def isPySpace (c : Char) : Bool := c = ' ' || c = '\n' || c = '\t' || c = '\r'

/-- Python `str.strip`. -/
def pyStrip (s : String) : String :=
  ⟨((s.data.dropWhile isPySpace).reverse.dropWhile isPySpace).reverse⟩

/-- Python slicing `s[:n]` (by code points). -/
def pyTake (s : String) (n : Nat) : String := ⟨s.data.take n⟩

/-- Python `len` on a string (code points). -/
def pyLen (s : String) : Nat := s.data.length

/-- Python `sep.join(xs)`. -/
def joinWith (sep : String) : List String → String
  | [] => ""
  | [x] => x
  | x :: xs => x ++ sep ++ joinWith sep xs

/-- Python truthiness of an optional string: `None` and `""` are falsy. -/
def truthy : Option String → Bool
  | none => false
  | some s => s != ""

/-- Python `str(x)` as used by `str.format` on an optional string:
`None` renders as the four letters `None`. -/
def pyStr : Option String → String
  | none => "None"
  | some s => s

/-! ## Data model -/

/-- An uploaded file: filename plus raw byte content. -/
structure UploadFile where
  filename : String
  content : List Nat
deriving Repr, DecidableEq

/-- The environment variables the pipeline reads; `none` models an unset
variable. -/
structure Env where
  openai_api_key : Option String
  together_api_key : Option String
deriving Repr, DecidableEq

/-- The `openai` section of the configuration
(src/data/avatar_creation_pipeline.py lines 45-49). `temperature10` is
the float temperature in tenths (7 models 0.7). -/
structure OpenAIConfig where
  chat_model : String
  max_tokens : Nat
  temperature10 : Nat
deriving Repr, DecidableEq

/-- The `together_ai` section of the configuration (lines 50-54). The
three optional fields model keys that a `config.toml` may define (the
loader returns the parsed file verbatim); the code never reads them and
the default configuration leaves them absent. -/
structure TogetherConfig where
  image_model : String
  max_tokens : Nat
  temperature10 : Nat
  image_width : Option Nat := none
  image_height : Option Nat := none
  image_steps : Option Nat := none
deriving Repr, DecidableEq

/-- The configuration record (the shape of `DEFAULT_CONFIG`). -/
structure Config where
  openai : OpenAIConfig
  together_ai : TogetherConfig
deriving Repr, DecidableEq

/-- `DEFAULT_CONFIG` (lines 44-55). -/
def DEFAULT_CONFIG : Config :=
  { openai := { chat_model := "gpt-4o", max_tokens := 1000, temperature10 := 7 }
    together_ai := { image_model := "black-forest-labs/FLUX.1-schnell",
                     max_tokens := 512, temperature10 := 7 } }

/-- State of the `config.toml` file as `load_config` can observe it. -/
inductive ConfigFileState where
  | absent
  | unreadable (msg : String)
  | malformed (msg : String)
  | wellFormed (cfg : Config)
deriving Repr

/-- `load_config` (lines 58-72): `tomlAvailable` models the module-level
`TOML_AVAILABLE` flag; `open` raising models an unreadable file and
`toml.load` raising models a malformed one, both caught by the
`except` clause. -/
def load_config (tomlAvailable : Bool) (st : ConfigFileState) : Config :=
  if !tomlAvailable then DEFAULT_CONFIG
  else
    match st with
    | ConfigFileState.absent => DEFAULT_CONFIG
    | ConfigFileState.unreadable _ => DEFAULT_CONFIG
    | ConfigFileState.malformed _ => DEFAULT_CONFIG
    | ConfigFileState.wellFormed cfg => cfg

/-- One chat-completion request as assembled by the code. -/
structure ChatRequest where
  model : String
  system_msg : String
  user_msg : String
  max_tokens : Nat
  temperature10 : Nat
deriving Repr, DecidableEq

/-- The JSON body of the image-generation POST (lines 306-314). -/
structure ImageRequest where
  model : String
  prompt : String
  width : Nat
  height : Nat
  steps : Nat
  n : Nat
  response_format : String
deriving Repr, DecidableEq

/-- The observable pieces of the Together AI HTTP response:
`status_code`, body `text`, and `jsonUrl`, the outcome of evaluating
`response.json()["data"][0]["url"]` (an `Except.error` carries the
`str(e)` of the exception that evaluation would raise). -/
structure ImageHttpResponse where
  status_code : Nat
  text : String
  jsonUrl : Except String String
deriving Repr

/-- One external call performed by a run, in order. -/
inductive Call where
  | extractCall (filename : String)
  | chatCall (req : ChatRequest)
  | imageCall (req : ImageRequest)
deriving Repr, DecidableEq

/-- A call is a provider (network) call; PDF extraction is local. -/
def Call.isProviderCall : Call → Bool
  | Call.extractCall _ => false
  | Call.chatCall _ => true
  | Call.imageCall _ => true

/-- The trace contains no provider (chat or image) call. -/
def providerFree (tr : List Call) : Prop :=
  ∀ c ∈ tr, c.isProviderCall = false

/-- The image requests appearing in a trace, in order. -/
def imageReqs (tr : List Call) : List ImageRequest :=
  tr.filterMap fun c =>
    match c with
    | Call.imageCall r => some r
    | _ => none

/-- The `data` dictionary of a result envelope, with every key optional
so that an absent key is a type-level fact. -/
structure ResultData where
  persona : Option String := none
  persona_summary : Option String := none
  image_url : Option String := none
  query : Option String := none
  files_processed : Option (List String) := none
  models_used_chat : Option String := none
  models_used_image : Option String := none
  image_prompt : Option String := none
deriving Repr, DecidableEq

/-- The result envelope both entry points return. -/
structure PipelineResult where
  status : String
  message : String
  data : Option ResultData := none
deriving Repr, DecidableEq

/-! ## Prompts (lines 26-40) -/

def EXPERT_WITNESS_SYSTEM_PROMPT : String :=
  "You are an expert witness creator. Create professional expert witness personas based on legal case content."

def PERSONA_SUMMARY_SYSTEM_PROMPT : String :=
  "You are an expert at creating concise visual descriptions for professional headshots."

/-- `EXPERT_WITNESS_USER_PROMPT_TEMPLATE.format(user_query=...)`. -/
def expertUserPrompt (user_query : String) : String :=
  "Create a professional expert witness persona for this case: " ++ user_query

/-- `PERSONA_SUMMARY_USER_PROMPT_TEMPLATE.format(persona=...)`. -/
def summaryUserPrompt (persona : String) : String :=
  "Based on this expert witness persona, create a brief 1-2 sentence description focusing on their appearance, profession, and demeanor for generating a professional headshot photo:\n\n"
    ++ persona ++ "\n\nDescription for headshot:"

/-- `get_simple_image_prompt` (lines 38-40). -/
def get_simple_image_prompt (persona_summary : String) : String :=
  "Professional headshot portrait: " ++ persona_summary
    ++ ". High quality, professional lighting, business attire, neutral background."

/-! ## Pipeline stages -/

/-- `extract_text_from_pdf` (lines 79-95). `extract` is the oracle for
`file.read()` plus PyPDF2 page extraction; an `Except.error` carries the
`str(e)` of whatever those raised. The code strips the result and wraps
any failure in its own message. -/
def extract_text_from_pdf (extract : UploadFile → Except String String)
    (file : UploadFile) : Except String String :=
  match extract file with
  | Except.ok text => Except.ok (pyStrip text)
  | Except.error e =>
      Except.error ("Error extracting text from " ++ file.filename ++ ": " ++ e)

/-- The loop body of `process_multiple_pdfs` (lines 100-107): returns the
per-file sections (before joining) and the trace of extraction calls. -/
def process_pdfs_aux (extract : UploadFile → Except String String) :
    List UploadFile → Except String (List String) × List Call
  | [] => (Except.ok [], [])
  | file :: rest =>
    if pyEndsWith (pyLower file.filename) ".pdf" then
      match extract_text_from_pdf extract file with
      | Except.error e => (Except.error e, [Call.extractCall file.filename])
      | Except.ok text =>
        let r := process_pdfs_aux extract rest
        (Except.map
          (fun sections =>
            ("--- Content from " ++ file.filename ++ " ---\n" ++ text) :: sections)
          r.fst,
         Call.extractCall file.filename :: r.snd)
    else
      (Except.error ("File " ++ file.filename ++ " is not a PDF"), [])

/-- `process_multiple_pdfs` (lines 98-109). -/
def process_multiple_pdfs (extract : UploadFile → Except String String)
    (files : List UploadFile) : Except String String × List Call :=
  let r := process_pdfs_aux extract files
  (Except.map (joinWith "\n\n") r.fst, r.snd)

/-- The input-normalization block shared verbatim by both entry points
(lines 176-191 and 238-254): content (possibly `None`) plus the
provenance label, or the exception the document processing raised. -/
def normalizeContent (extract : UploadFile → Except String String)
    (text_query : Option String) (files : List UploadFile) :
    Except String (Option String × String) × List Call :=
  if files.isEmpty then
    (Except.ok (text_query, "from text query"), [])
  else
    let r := process_multiple_pdfs extract files
    (match r.fst with
     | Except.error e => Except.error e
     | Except.ok pdf_content =>
       if truthy text_query then
         Except.ok (some ("Additional context: " ++ pyStr text_query ++ "\n\n" ++ pdf_content),
           "from text query and " ++ toString files.length ++ " PDF file(s)")
       else
         Except.ok (some pdf_content,
           "from " ++ toString files.length ++ " PDF file(s)"),
     r.snd)

/-- `content[:200] + "..." if len(content) > 200 else content` (line 152). -/
def truncatedQuery (content : String) : String :=
  if pyLen content > 200 then pyTake content 200 ++ "..." else content

/-- `generate_expert_persona` (lines 112-158). `chat` is the oracle for
one chat-completion call: `Except.ok` carries
`choices[0].message.content`, `Except.error` the `str(e)` of whatever
the call raised. With `content = None` the call itself succeeds (the
prompt renders `None`) but building the `query` field evaluates
`len(None)`, whose `TypeError` the `except` clause converts. -/
def generate_expert_persona (cfg : Config) (env : Env)
    (chat : ChatRequest → Except String String)
    (content : Option String) (source_info : String) : PipelineResult × List Call :=
  if !truthy env.openai_api_key then
    ({ status := "error",
       message := "OpenAI API key not found in environment variables" }, [])
  else
    let req : ChatRequest :=
      { model := cfg.openai.chat_model
        system_msg := EXPERT_WITNESS_SYSTEM_PROMPT
        user_msg := expertUserPrompt (pyStr content)
        max_tokens := cfg.openai.max_tokens
        temperature10 := cfg.openai.temperature10 }
    match chat req with
    | Except.error e =>
        ({ status := "error", message := "Error creating persona: " ++ e },
         [Call.chatCall req])
    | Except.ok expert_persona =>
        match content with
        | none =>
            ({ status := "error",
               message := "Error creating persona: object of type \x27NoneType\x27 has no len()" },
             [Call.chatCall req])
        | some c =>
            ({ status := "ok",
               message := "Expert witness persona created successfully " ++ source_info,
               data := some { persona := some expert_persona,
                              query := some (truncatedQuery c),
                              models_used_chat := some cfg.openai.chat_model } },
             [Call.chatCall req])

/-- `create_persona_only` (lines 161-205). A `None` files argument and an
empty list are indistinguishable to the code (`if files:`), so files is a
plain list. -/
def create_persona_only (cfg : Config) (env : Env)
    (extract : UploadFile → Except String String)
    (chat : ChatRequest → Except String String)
    (text_query : Option String) (files : List UploadFile) :
    PipelineResult × List Call :=
  match normalizeContent extract text_query files with
  | (Except.error e, tr) =>
      ({ status := "error", message := "Error creating persona: " ++ e }, tr)
  | (Except.ok (content, source_info), tr) =>
      let gr := generate_expert_persona cfg env chat content source_info
      let final :=
        if gr.fst.status == "ok" then
          { gr.fst with data := gr.fst.data.map fun d =>
              { d with files_processed := some (files.map UploadFile.filename) } }
        else gr.fst
      (final, tr ++ gr.snd)

/-- `create_avatar_image` (lines 208-342). `imagePost` is the oracle for
the Together AI HTTP POST; an `Except.error` carries the `str(e)` of a
transport-level exception (caught by the outer handler). -/
def create_avatar_image (cfg : Config) (env : Env)
    (extract : UploadFile → Except String String)
    (chat : ChatRequest → Except String String)
    (imagePost : ImageRequest → Except String ImageHttpResponse)
    (text_query : Option String) (files : List UploadFile) :
    PipelineResult × List Call :=
  if !truthy env.openai_api_key then
    ({ status := "error",
       message := "OpenAI API key not found in environment variables" }, [])
  else if !truthy env.together_api_key then
    ({ status := "error",
       message := "Together AI API key not found in environment variables" }, [])
  else
    match normalizeContent extract text_query files with
    | (Except.error e, tr) =>
        ({ status := "error", message := "Error creating avatar: " ++ e }, tr)
    | (Except.ok (content, source_info), tr) =>
      let req1 : ChatRequest :=
        { model := cfg.openai.chat_model
          system_msg := EXPERT_WITNESS_SYSTEM_PROMPT
          user_msg := expertUserPrompt (pyStr content)
          max_tokens := cfg.openai.max_tokens
          temperature10 := cfg.openai.temperature10 }
      match chat req1 with
      | Except.error e =>
          ({ status := "error", message := "Error creating avatar: " ++ e },
           tr ++ [Call.chatCall req1])
      | Except.ok expert_persona =>
        let req2 : ChatRequest :=
          { model := cfg.openai.chat_model
            system_msg := PERSONA_SUMMARY_SYSTEM_PROMPT
            user_msg := summaryUserPrompt expert_persona
            max_tokens := 100
            temperature10 := 3 }
        match chat req2 with
        | Except.error e =>
            ({ status := "error", message := "Error creating avatar: " ++ e },
             tr ++ [Call.chatCall req1, Call.chatCall req2])
        | Except.ok raw_summary =>
          let persona_summary := pyStrip raw_summary
          let image_prompt := get_simple_image_prompt persona_summary
          let ireq : ImageRequest :=
            { model := cfg.together_ai.image_model
              prompt := image_prompt
              width := 1024
              height := 768
              steps := 3
              n := 1
              response_format := "url" }
          let trace := tr ++ [Call.chatCall req1, Call.chatCall req2, Call.imageCall ireq]
          match imagePost ireq with
          | Except.error e =>
              ({ status := "error", message := "Error creating avatar: " ++ e }, trace)
          | Except.ok resp =>
            if resp.status_code != 200 then
              ({ status := "error",
                 message := "Together AI API error: " ++ toString resp.status_code
                   ++ " - " ++ resp.text }, trace)
            else
              match resp.jsonUrl with
              | Except.error e =>
                  ({ status := "error", message := "Error creating avatar: " ++ e }, trace)
              | Except.ok image_url =>
                  ({ status := "ok",
                     message := "Expert witness avatar created successfully " ++ source_info,
                     data := some
                       { persona := some expert_persona,
                         persona_summary := some persona_summary,
                         image_url := some image_url,
                         query := some (if truthy text_query then pyStr text_query else "PDF content"),
                         files_processed := some (files.map UploadFile.filename),
                         models_used_chat := some cfg.openai.chat_model,
                         models_used_image := some cfg.together_ai.image_model,
                         image_prompt := some image_prompt } }, trace)

/-- `create_avatar_image_sync` (lines 346-348): `asyncio.run` of the
coroutine with only a text query, so files defaults to `None`. -/
def create_avatar_image_sync (cfg : Config) (env : Env)
    (extract : UploadFile → Except String String)
    (chat : ChatRequest → Except String String)
    (imagePost : ImageRequest → Except String ImageHttpResponse)
    (text_query : String) : PipelineResult × List Call :=
  create_avatar_image cfg env extract chat imagePost (some text_query) []

/-- A well-formed envelope: its status is the literal `ok` or `error`,
and an error carries a non-empty message. -/
def isErrorOkEnvelope (r : PipelineResult) : Prop :=
  (r.status = "ok" ∨ r.status = "error") ∧ (r.status = "error" → r.message ≠ "")

/-! ## Concrete fixtures used by witnesses and counterexamples -/

/-- Extraction oracle that succeeds on every file. -/
def okExtract : UploadFile → Except String String := fun _ => Except.ok "PDF TEXT"

/-- Chat oracle that succeeds on every request. -/
def okChat : ChatRequest → Except String String := fun _ => Except.ok "PERSONA"

/-- Image oracle that answers 200 with one image URL. -/
def okImage : ImageRequest → Except String ImageHttpResponse := fun _ =>
  Except.ok { status_code := 200, text := "", jsonUrl := Except.ok "http://img.example/1.png" }

/-- Environment with both credentials set. -/
def envFull : Env := { openai_api_key := some "sk-test", together_api_key := some "tog-test" }

/-- Environment with both credentials unset. -/
def envNone : Env := { openai_api_key := none, together_api_key := none }

/-- Environment with only the OpenAI credential set. -/
def envOpenAIOnly : Env := { openai_api_key := some "sk-test", together_api_key := none }

/-- A PDF upload. -/
def pdfFile : UploadFile := { filename := "case.pdf", content := [1, 2, 3] }

/-- A non-PDF upload. -/
def txtFile : UploadFile := { filename := "case.txt", content := [4, 5] }

/-- A configuration whose `together_ai` table carries width, height and
steps keys, as `section 6` of the spec describes the config file. -/
def cfgWide : Config :=
  { openai := { chat_model := "gpt-4o", max_tokens := 1000, temperature10 := 7 }
    together_ai := { image_model := "black-forest-labs/FLUX.1-schnell",
                     max_tokens := 512, temperature10 := 7,
                     image_width := some 512, image_height := some 512,
                     image_steps := some 8 } }

/-! ## Helper lemmas -/

theorem data_append_ne_nil (s t : String) (h : s.data ≠ []) : (s ++ t).data ≠ [] := by
  rw [String.data_append]
  intro h2
  exact h (List.append_eq_nil.mp h2).1

theorem append_left_ne_empty (s t : String) (h : s.data ≠ []) : s ++ t ≠ "" := by
  intro h2
  exact data_append_ne_nil s t h (congrArg String.data h2)

theorem providerFree_nil : providerFree [] := by
  intro c hc
  cases hc

theorem providerFree_append (a b : List Call) (ha : providerFree a) (hb : providerFree b) :
    providerFree (a ++ b) := by
  intro c hc
  rcases List.mem_append.mp hc with h | h
  · exact ha c h
  · exact hb c h

theorem providerFree_process_pdfs_aux (extract : UploadFile → Except String String)
    (files : List UploadFile) : providerFree (process_pdfs_aux extract files).snd := by
  induction files with
  | nil => exact providerFree_nil
  | cons f rest ih =>
    intro c hc
    simp only [process_pdfs_aux] at hc
    split at hc
    · cases hef : extract_text_from_pdf extract f with
      | error e =>
        rw [hef] at hc
        simp only [List.mem_singleton] at hc
        subst hc
        rfl
      | ok t =>
        rw [hef] at hc
        simp only [List.mem_cons] at hc
        rcases hc with rfl | hc
        · rfl
        · exact ih c hc
    · cases hc

theorem providerFree_process (extract : UploadFile → Except String String)
    (files : List UploadFile) : providerFree (process_multiple_pdfs extract files).snd :=
  providerFree_process_pdfs_aux extract files

theorem providerFree_normalize (extract : UploadFile → Except String String)
    (q : Option String) (files : List UploadFile) :
    providerFree (normalizeContent extract q files).snd := by
  unfold normalizeContent
  split
  · exact providerFree_nil
  · exact providerFree_process extract files

theorem imageReqs_append (a b : List Call) :
    imageReqs (a ++ b) = imageReqs a ++ imageReqs b :=
  List.filterMap_append ..

theorem imageReqs_of_providerFree (tr : List Call) (h : providerFree tr) :
    imageReqs tr = [] := by
  induction tr with
  | nil => rfl
  | cons c t ih =>
    have hc := h c (List.mem_cons_self ..)
    have ht : providerFree t := fun d hd => h d (List.mem_cons_of_mem _ hd)
    cases c with
    | extractCall fn =>
      simpa only [imageReqs, List.filterMap_cons] using ih ht
    | chatCall r => exact absurd hc (by simp [Call.isProviderCall])
    | imageCall r => exact absurd hc (by simp [Call.isProviderCall])

theorem generate_data_shape (cfg : Config) (env : Env)
    (chat : ChatRequest → Except String String)
    (content : Option String) (source_info : String) :
    ((generate_expert_persona cfg env chat content source_info).fst.data.bind
        ResultData.image_url = none)
    ∧ ((generate_expert_persona cfg env chat content source_info).fst.data.bind
        ResultData.persona_summary = none)
    ∧ ((generate_expert_persona cfg env chat content source_info).fst.data.bind
        ResultData.models_used_image = none)
    ∧ ((generate_expert_persona cfg env chat content source_info).fst.data.bind
        ResultData.image_prompt = none) := by
  simp only [generate_expert_persona]
  split
  · exact ⟨rfl, rfl, rfl, rfl⟩
  · split <;> [skip; split] <;> exact ⟨rfl, rfl, rfl, rfl⟩

theorem imageReqs_normalize (extract : UploadFile → Except String String)
    (q : Option String) (files : List UploadFile) :
    imageReqs (normalizeContent extract q files).snd = [] :=
  imageReqs_of_providerFree _ (providerFree_normalize extract q files)

theorem imageReqs_one_chat (r1 : ChatRequest) : imageReqs [Call.chatCall r1] = [] := rfl

theorem imageReqs_two_chats (r1 r2 : ChatRequest) :
    imageReqs [Call.chatCall r1, Call.chatCall r2] = [] := rfl

theorem imageReqs_chats_image (r1 r2 : ChatRequest) (ir : ImageRequest) :
    imageReqs [Call.chatCall r1, Call.chatCall r2, Call.imageCall ir] = [ir] := rfl

theorem ok_ne_error : ("ok" : String) ≠ "error" := by decide

theorem openai_msg_ne_empty :
    ("OpenAI API key not found in environment variables" : String) ≠ "" := by decide

theorem together_msg_ne_empty :
    ("Together AI API key not found in environment variables" : String) ≠ "" := by decide

theorem nonetype_msg_ne_empty :
    ("Error creating persona: object of type \x27NoneType\x27 has no len()" : String) ≠ "" := by
  decide

theorem generate_envelope (cfg : Config) (env : Env)
    (chat : ChatRequest → Except String String)
    (content : Option String) (source_info : String) :
    isErrorOkEnvelope (generate_expert_persona cfg env chat content source_info).fst := by
  simp only [generate_expert_persona, isErrorOkEnvelope]
  split
  · exact ⟨Or.inr rfl, fun _ => openai_msg_ne_empty⟩
  · split
    · exact ⟨Or.inr rfl, fun _ => append_left_ne_empty _ _ (by decide)⟩
    · split
      · exact ⟨Or.inr rfl, fun _ => nonetype_msg_ne_empty⟩
      · exact ⟨Or.inl rfl, fun h => absurd h ok_ne_error⟩

theorem generate_no_key (cfg : Config) (env : Env)
    (chat : ChatRequest → Except String String)
    (content : Option String) (source_info : String)
    (hkey : truthy env.openai_api_key = false) :
    generate_expert_persona cfg env chat content source_info
      = ({ status := "error",
           message := "OpenAI API key not found in environment variables" }, []) := by
  simp [generate_expert_persona, hkey]

theorem process_aux_fails_on_non_pdf (extract : UploadFile → Except String String)
    (hext : ∀ f, (extract f).isOk = true) :
    ∀ files : List UploadFile,
      (∃ f ∈ files, pyEndsWith (pyLower f.filename) ".pdf" = false) →
      ∃ name, pyEndsWith (pyLower name) ".pdf" = false ∧
        (process_pdfs_aux extract files).fst
          = Except.error ("File " ++ name ++ " is not a PDF") := by
  intro files
  induction files with
  | nil =>
    rintro ⟨f, hf, _⟩
    cases hf
  | cons f rest ih =>
    rintro ⟨g, hg, hgbad⟩
    by_cases hp : pyEndsWith (pyLower f.filename) ".pdf" = true
    · have hrest : ∃ d ∈ rest, pyEndsWith (pyLower d.filename) ".pdf" = false := by
        rcases List.mem_cons.mp hg with rfl | h
        · rw [hp] at hgbad
          cases hgbad
        · exact ⟨g, h, hgbad⟩
      obtain ⟨name, hn, herr⟩ := ih hrest
      refine ⟨name, hn, ?_⟩
      have hok := hext f
      cases hef : extract f with
      | error e =>
        rw [hef] at hok
        cases hok
      | ok t =>
        simp only [process_pdfs_aux, hp, if_true, extract_text_from_pdf, hef]
        rw [herr]
        rfl
    · refine ⟨f.filename, by simpa using hp, ?_⟩
      simp only [process_pdfs_aux]
      rw [if_neg hp]

theorem persona_envelope (cfg : Config) (env : Env)
    (extract : UploadFile → Except String String)
    (chat : ChatRequest → Except String String)
    (q : Option String) (files : List UploadFile) :
    isErrorOkEnvelope (create_persona_only cfg env extract chat q files).fst := by
  simp only [create_persona_only]
  split
  · exact ⟨Or.inr rfl, fun _ => append_left_ne_empty _ _ (by decide)⟩
  · rename_i content source_info tr heq
    have hg := generate_envelope cfg env chat content source_info
    split
    · rename_i hok
      rw [beq_iff_eq] at hok
      exact ⟨Or.inl hok, fun h => absurd (hok.symm.trans h) (by decide)⟩
    · exact hg

theorem avatar_envelope (cfg : Config) (env : Env)
    (extract : UploadFile → Except String String)
    (chat : ChatRequest → Except String String)
    (imagePost : ImageRequest → Except String ImageHttpResponse)
    (q : Option String) (files : List UploadFile) :
    isErrorOkEnvelope (create_avatar_image cfg env extract chat imagePost q files).fst := by
  simp only [create_avatar_image, isErrorOkEnvelope]
  split
  · exact ⟨Or.inr rfl, fun _ => openai_msg_ne_empty⟩
  · split
    · exact ⟨Or.inr rfl, fun _ => together_msg_ne_empty⟩
    · split
      · exact ⟨Or.inr rfl, fun _ => append_left_ne_empty _ _ (by decide)⟩
      · split
        · exact ⟨Or.inr rfl, fun _ => append_left_ne_empty _ _ (by decide)⟩
        · split
          · exact ⟨Or.inr rfl, fun _ => append_left_ne_empty _ _ (by decide)⟩
          · split
            · exact ⟨Or.inr rfl, fun _ => append_left_ne_empty _ _ (by decide)⟩
            · split
              · exact ⟨Or.inr rfl, fun _ =>
                  append_left_ne_empty _ _
                    (data_append_ne_nil _ _ (data_append_ne_nil _ _ (by decide)))⟩
              · split
                · exact ⟨Or.inr rfl, fun _ => append_left_ne_empty _ _ (by decide)⟩
                · exact ⟨Or.inl rfl, fun h => absurd h ok_ne_error⟩

/-! ## Claims -/

/-- C1: both entry points are total for every input and every provider
behaviour (including raised exceptions, modelled as `Except.error`
oracle results): they always return an envelope whose status is the
literal ok or error, and every failure is converted into a status-error
envelope carrying a non-empty message. -/
theorem C1_entry_points_never_raise (cfg : Config) (env : Env)
    (extract : UploadFile → Except String String)
    (chat : ChatRequest → Except String String)
    (imagePost : ImageRequest → Except String ImageHttpResponse)
    (q : Option String) (files : List UploadFile) :
    isErrorOkEnvelope (create_persona_only cfg env extract chat q files).fst
    ∧ isErrorOkEnvelope (create_avatar_image cfg env extract chat imagePost q files).fst :=
  ⟨persona_envelope cfg env extract chat q files,
   avatar_envelope cfg env extract chat imagePost q files⟩

/-- C2: the canonical content string and provenance label follow the
three-case precedence: documents only give the combined document text
with provenance from N PDF file(s); documents plus a (non-empty) raw
query prepend the additional-context line and use the combined
provenance; a raw query alone is passed through verbatim with
provenance from text query. -/
theorem C2_normalization_precedence (extract : UploadFile → Except String String)
    (q : String) (files : List UploadFile) (combined : String)
    (hfiles : files ≠ [])
    (hcomb : (process_multiple_pdfs extract files).fst = Except.ok combined)
    (hq : q ≠ "") :
    (normalizeContent extract none files).fst
        = Except.ok (some combined, "from " ++ toString files.length ++ " PDF file(s)")
    ∧ (normalizeContent extract (some q) files).fst
        = Except.ok (some ("Additional context: " ++ q ++ "\n\n" ++ combined),
            "from text query and " ++ toString files.length ++ " PDF file(s)")
    ∧ ∀ q2 : String, (normalizeContent extract (some q2) []).fst
        = Except.ok (some q2, "from text query") := by
  have hfe : files.isEmpty = false := by
    cases files with
    | nil => exact absurd rfl hfiles
    | cons a b => rfl
  refine ⟨?_, ?_, fun q2 => rfl⟩
  · unfold normalizeContent
    simp [hfe, hcomb, truthy, pyStr]
  · unfold normalizeContent
    simp [hfe, hcomb, truthy, pyStr, hq]

/-- C2 witness: concrete one-file request in each of the three cases. -/
theorem C2_normalization_precedence_witness :
    (normalizeContent okExtract none [pdfFile]).fst
        = Except.ok (some "--- Content from case.pdf ---\nPDF TEXT", "from 1 PDF file(s)")
    ∧ (normalizeContent okExtract (some "hi") [pdfFile]).fst
        = Except.ok (some "Additional context: hi\n\n--- Content from case.pdf ---\nPDF TEXT",
            "from text query and 1 PDF file(s)")
    ∧ (normalizeContent okExtract (some "solo") []).fst
        = Except.ok (some "solo", "from text query") := by
  obtain ⟨h1, h2, h3⟩ :=
    C2_normalization_precedence okExtract "hi" [pdfFile]
      "--- Content from case.pdf ---\nPDF TEXT" (by decide) rfl (by decide)
  exact ⟨h1, h2, h3 "solo"⟩

/-- C3 counterexample: with neither a raw query nor documents, the
normalization step does not fail at all; it succeeds with an absent
content value and provenance from text query, so no EmptyInputError
exists. -/
theorem C3_counterexample :
    (normalizeContent okExtract none []).fst = Except.ok (none, "from text query")
    ∧ (normalizeContent okExtract none []).fst.isOk = true :=
  ⟨rfl, rfl⟩

/-- C3 amended: with neither a raw query nor documents, normalization
succeeds, yielding an absent content value with provenance from text
query and performing no external call; the empty input proceeds into
the persona stage instead of being rejected. -/
theorem C3_empty_input_not_rejected (extract : UploadFile → Except String String) :
    normalizeContent extract none [] = (Except.ok (none, "from text query"), []) := rfl

/-- C4 counterexample: under a configuration whose together_ai table
carries width 512, height 512 and steps 8, a successful full-avatar run
still issues its image request with width 1024, height 768 and steps 3:
the request does not carry the configured dimensions or step count. -/
theorem C4_counterexample :
    imageReqs (create_avatar_image cfgWide envFull okExtract okChat okImage
        (some "case") []).snd
      = [{ model := "black-forest-labs/FLUX.1-schnell",
           prompt := get_simple_image_prompt "PERSONA",
           width := 1024, height := 768, steps := 3, n := 1, response_format := "url" }]
    ∧ cfgWide.together_ai.image_width = some 512
    ∧ cfgWide.together_ai.image_height = some 512
    ∧ cfgWide.together_ai.image_steps = some 8
    ∧ ((1024 : Nat) ≠ 512 ∧ (768 : Nat) ≠ 512 ∧ (3 : Nat) ≠ 8) :=
  ⟨rfl, rfl, rfl, rfl, by decide⟩

/-- C4 amended: every image request issued by a full-avatar run carries
`config.imageModel` and a requested image count of one, while the
width, height and step count are hard-coded to 1024, 768 and 3 and are
not read from the configuration (whose default shape defines no such
keys). -/
theorem C4_image_request_fields (cfg : Config) (env : Env)
    (extract : UploadFile → Except String String)
    (chat : ChatRequest → Except String String)
    (imagePost : ImageRequest → Except String ImageHttpResponse)
    (q : Option String) (files : List UploadFile) :
    ∀ r ∈ imageReqs (create_avatar_image cfg env extract chat imagePost q files).snd,
      r.model = cfg.together_ai.image_model ∧ r.width = 1024 ∧ r.height = 768
        ∧ r.steps = 3 ∧ r.n = 1 ∧ r.response_format = "url" := by
  intro r hr
  simp only [create_avatar_image] at hr
  split at hr
  · dsimp only at hr
    simp [imageReqs] at hr
  · split at hr
    · dsimp only at hr
      simp [imageReqs] at hr
    · split at hr
      · rename_i e tr heq
        dsimp only at hr
        have hsnd : (normalizeContent extract q files).snd = tr := by rw [heq]
        have h0 : imageReqs tr = [] := by
          rw [← hsnd]
          exact imageReqs_normalize extract q files
        rw [h0] at hr
        cases hr
      · rename_i content source_info tr heq
        have hsnd : (normalizeContent extract q files).snd = tr := by rw [heq]
        have h0 : imageReqs tr = [] := by
          rw [← hsnd]
          exact imageReqs_normalize extract q files
        split at hr
        · dsimp only at hr
          rw [imageReqs_append, h0, imageReqs_one_chat] at hr
          cases hr
        · split at hr
          · dsimp only at hr
            rw [imageReqs_append, h0, imageReqs_two_chats] at hr
            cases hr
          · split at hr
            · dsimp only at hr
              rw [imageReqs_append, h0, imageReqs_chats_image, List.nil_append,
                List.mem_singleton] at hr
              subst hr
              exact ⟨rfl, rfl, rfl, rfl, rfl, rfl⟩
            · split at hr
              · dsimp only at hr
                rw [imageReqs_append, h0, imageReqs_chats_image, List.nil_append,
                  List.mem_singleton] at hr
                subst hr
                exact ⟨rfl, rfl, rfl, rfl, rfl, rfl⟩
              · split at hr
                · dsimp only at hr
                  rw [imageReqs_append, h0, imageReqs_chats_image, List.nil_append,
                    List.mem_singleton] at hr
                  subst hr
                  exact ⟨rfl, rfl, rfl, rfl, rfl, rfl⟩
                · dsimp only at hr
                  rw [imageReqs_append, h0, imageReqs_chats_image, List.nil_append,
                    List.mem_singleton] at hr
                  subst hr
                  exact ⟨rfl, rfl, rfl, rfl, rfl, rfl⟩

/-- C4 witness: the amended theorem applied to a concrete successful
run under the default configuration. -/
theorem C4_image_request_fields_witness :
    ({ model := "black-forest-labs/FLUX.1-schnell",
       prompt := get_simple_image_prompt "PERSONA",
       width := 1024, height := 768, steps := 3, n := 1,
       response_format := "url" } : ImageRequest).model
        = DEFAULT_CONFIG.together_ai.image_model
    ∧ ({ model := "black-forest-labs/FLUX.1-schnell",
         prompt := get_simple_image_prompt "PERSONA",
         width := 1024, height := 768, steps := 3, n := 1,
         response_format := "url" } : ImageRequest).width = 1024
    ∧ ({ model := "black-forest-labs/FLUX.1-schnell",
         prompt := get_simple_image_prompt "PERSONA",
         width := 1024, height := 768, steps := 3, n := 1,
         response_format := "url" } : ImageRequest).height = 768
    ∧ ({ model := "black-forest-labs/FLUX.1-schnell",
         prompt := get_simple_image_prompt "PERSONA",
         width := 1024, height := 768, steps := 3, n := 1,
         response_format := "url" } : ImageRequest).steps = 3
    ∧ ({ model := "black-forest-labs/FLUX.1-schnell",
         prompt := get_simple_image_prompt "PERSONA",
         width := 1024, height := 768, steps := 3, n := 1,
         response_format := "url" } : ImageRequest).n = 1
    ∧ ({ model := "black-forest-labs/FLUX.1-schnell",
         prompt := get_simple_image_prompt "PERSONA",
         width := 1024, height := 768, steps := 3, n := 1,
         response_format := "url" } : ImageRequest).response_format = "url" :=
  C4_image_request_fields DEFAULT_CONFIG envFull okExtract okChat okImage (some "case") []
    _ (by decide)

/-- C5: a document list containing any filename without a
case-insensitive .pdf suffix makes document combination fail with the
file-is-not-a-PDF error, and both entry points then return an error
envelope without attempting any provider call (the extraction oracle is
assumed to succeed, isolating the file-type check). -/
theorem C5_non_pdf_rejected_before_providers (cfg : Config) (env : Env)
    (extract : UploadFile → Except String String)
    (chat : ChatRequest → Except String String)
    (imagePost : ImageRequest → Except String ImageHttpResponse)
    (q : Option String) (files : List UploadFile)
    (hext : ∀ f, (extract f).isOk = true)
    (hbad : ∃ f ∈ files, pyEndsWith (pyLower f.filename) ".pdf" = false) :
    (∃ name, pyEndsWith (pyLower name) ".pdf" = false ∧
       (process_multiple_pdfs extract files).fst
         = Except.error ("File " ++ name ++ " is not a PDF"))
    ∧ (create_persona_only cfg env extract chat q files).fst.status = "error"
    ∧ providerFree (create_persona_only cfg env extract chat q files).snd
    ∧ (create_avatar_image cfg env extract chat imagePost q files).fst.status = "error"
    ∧ providerFree (create_avatar_image cfg env extract chat imagePost q files).snd := by
  obtain ⟨name, hn, haux⟩ := process_aux_fails_on_non_pdf extract hext files hbad
  have hproc : (process_multiple_pdfs extract files).fst
      = Except.error ("File " ++ name ++ " is not a PDF") := by
    simp only [process_multiple_pdfs]
    rw [haux]
    rfl
  have hfe : files.isEmpty = false := by
    obtain ⟨f, hf, _⟩ := hbad
    cases files with
    | nil => cases hf
    | cons a b => rfl
  have hnorm : (normalizeContent extract q files).fst
      = Except.error ("File " ++ name ++ " is not a PDF") := by
    simp only [normalizeContent, hfe]
    rw [hproc]
    rfl
  refine ⟨⟨name, hn, hproc⟩, ?_, ?_, ?_, ?_⟩
  · simp only [create_persona_only]
    split
    · rfl
    · rename_i content source_info tr heq
      have hfst : (normalizeContent extract q files).fst
          = Except.ok (content, source_info) := by rw [heq]
      rw [hnorm] at hfst
      cases hfst
  · simp only [create_persona_only]
    split
    · rename_i e tr heq
      have hsnd : (normalizeContent extract q files).snd = tr := by rw [heq]
      exact hsnd ▸ providerFree_normalize extract q files
    · rename_i content source_info tr heq
      have hfst : (normalizeContent extract q files).fst
          = Except.ok (content, source_info) := by rw [heq]
      rw [hnorm] at hfst
      cases hfst
  · simp only [create_avatar_image]
    split
    · rfl
    · split
      · rfl
      · split
        · rfl
        · rename_i content source_info tr heq
          have hfst : (normalizeContent extract q files).fst
              = Except.ok (content, source_info) := by rw [heq]
          rw [hnorm] at hfst
          cases hfst
  · simp only [create_avatar_image]
    split
    · exact providerFree_nil
    · split
      · exact providerFree_nil
      · split
        · rename_i e tr heq
          have hsnd : (normalizeContent extract q files).snd = tr := by rw [heq]
          exact hsnd ▸ providerFree_normalize extract q files
        · rename_i content source_info tr heq
          have hfst : (normalizeContent extract q files).fst
              = Except.ok (content, source_info) := by rw [heq]
          rw [hnorm] at hfst
          cases hfst

/-- C5 witness: a single .txt upload under a full environment. -/
theorem C5_non_pdf_rejected_witness :
    (∃ name, pyEndsWith (pyLower name) ".pdf" = false ∧
       (process_multiple_pdfs okExtract [txtFile]).fst
         = Except.error ("File " ++ name ++ " is not a PDF"))
    ∧ (create_persona_only DEFAULT_CONFIG envFull okExtract okChat none [txtFile]).fst.status
        = "error"
    ∧ providerFree (create_persona_only DEFAULT_CONFIG envFull okExtract okChat none
        [txtFile]).snd
    ∧ (create_avatar_image DEFAULT_CONFIG envFull okExtract okChat okImage none
        [txtFile]).fst.status = "error"
    ∧ providerFree (create_avatar_image DEFAULT_CONFIG envFull okExtract okChat okImage none
        [txtFile]).snd :=
  C5_non_pdf_rejected_before_providers DEFAULT_CONFIG envFull okExtract okChat okImage none
    [txtFile] (fun _ => rfl) ⟨txtFile, by decide, by decide⟩

/-- C6 counterexample: with the OpenAI key absent but a non-PDF upload
in the request, the persona-only entry point reports the file-type
error, not the missing credential, so the message does not identify the
credential for every request. -/
theorem C6_counterexample :
    (create_persona_only DEFAULT_CONFIG envNone okExtract okChat none [txtFile]).fst
      = { status := "error",
          message := "Error creating persona: File case.txt is not a PDF" }
    ∧ envNone.openai_api_key = none
    ∧ ("Error creating persona: File case.txt is not a PDF" : String)
        ≠ "OpenAI API key not found in environment variables" :=
  ⟨rfl, rfl, by decide⟩

/-- C6 amended: whenever the OpenAI credential is absent (or empty), the
persona-only entry point returns an error envelope and attempts no
provider network call; its message identifies the missing credential
whenever input normalization itself succeeds (a document-processing
failure is reported instead when normalization fails first). -/
theorem C6_missing_chat_credential (cfg : Config) (env : Env)
    (extract : UploadFile → Except String String)
    (chat : ChatRequest → Except String String)
    (q : Option String) (files : List UploadFile)
    (hkey : truthy env.openai_api_key = false) :
    (create_persona_only cfg env extract chat q files).fst.status = "error"
    ∧ providerFree (create_persona_only cfg env extract chat q files).snd
    ∧ ((normalizeContent extract q files).fst.isOk = true →
        (create_persona_only cfg env extract chat q files).fst.message
          = "OpenAI API key not found in environment variables") := by
  simp only [create_persona_only]
  split
  · rename_i e tr heq
    refine ⟨rfl, ?_, ?_⟩
    · have hsnd : (normalizeContent extract q files).snd = tr := by rw [heq]
      exact hsnd ▸ providerFree_normalize extract q files
    · intro hok
      have hfst : (normalizeContent extract q files).fst = Except.error e := by rw [heq]
      rw [hfst] at hok
      simp [Except.isOk, Except.toBool] at hok
  · rename_i content source_info tr heq
    rw [generate_no_key cfg env chat content source_info hkey]
    refine ⟨rfl, ?_, fun _ => rfl⟩
    have hsnd : (normalizeContent extract q files).snd = tr := by rw [heq]
    exact providerFree_append tr []
      (hsnd ▸ providerFree_normalize extract q files) providerFree_nil

/-- C6 witness: the amended theorem at a plain text query with no key. -/
theorem C6_missing_chat_credential_witness :
    (create_persona_only DEFAULT_CONFIG envNone okExtract okChat (some "hi") []).fst.status
        = "error"
    ∧ providerFree (create_persona_only DEFAULT_CONFIG envNone okExtract okChat
        (some "hi") []).snd
    ∧ ((normalizeContent okExtract (some "hi") []).fst.isOk = true →
        (create_persona_only DEFAULT_CONFIG envNone okExtract okChat (some "hi") []).fst.message
          = "OpenAI API key not found in environment variables") :=
  C6_missing_chat_credential DEFAULT_CONFIG envNone okExtract okChat (some "hi") [] rfl

/-- C7: the persona-only entry point never populates the image URL, the
visual summary, the image model or the image prompt in its envelope,
whatever the stage outcomes; only persona, query, chat model and
files-processed can be populated. -/
theorem C7_persona_only_never_populates_image (cfg : Config) (env : Env)
    (extract : UploadFile → Except String String)
    (chat : ChatRequest → Except String String)
    (q : Option String) (files : List UploadFile) :
    ((create_persona_only cfg env extract chat q files).fst.data.bind
        ResultData.image_url = none)
    ∧ ((create_persona_only cfg env extract chat q files).fst.data.bind
        ResultData.persona_summary = none)
    ∧ ((create_persona_only cfg env extract chat q files).fst.data.bind
        ResultData.models_used_image = none)
    ∧ ((create_persona_only cfg env extract chat q files).fst.data.bind
        ResultData.image_prompt = none) := by
  simp only [create_persona_only]
  split
  · exact ⟨rfl, rfl, rfl, rfl⟩
  · rename_i content source_info tr heq
    obtain ⟨h1, h2, h3, h4⟩ := generate_data_shape cfg env chat content source_info
    split
    · cases hd : (generate_expert_persona cfg env chat content source_info).fst.data with
      | none => simp [hd]
      | some d =>
        rw [hd] at h1 h2 h3 h4
        simp only [Option.some_bind] at h1 h2 h3 h4
        simp [hd, h1, h2, h3, h4]
    · exact ⟨h1, h2, h3, h4⟩

/-- C8: `load_config` is total: when the toml module is unavailable or
the configuration file is absent, unreadable or malformed, it returns
the hard-coded default configuration instead of raising. -/
theorem C8_load_config_defaults (st : ConfigFileState) (avail : Bool) (m m2 : String) :
    load_config false st = DEFAULT_CONFIG
    ∧ load_config avail ConfigFileState.absent = DEFAULT_CONFIG
    ∧ load_config avail (ConfigFileState.unreadable m) = DEFAULT_CONFIG
    ∧ load_config avail (ConfigFileState.malformed m2) = DEFAULT_CONFIG := by
  refine ⟨?_, ?_, ?_, ?_⟩ <;> cases avail <;> cases st <;> rfl

/-- C9 counterexample: for a request made while TOGETHER_API_KEY is
unset but OPENAI_API_KEY is also unset, the returned envelope names the
OpenAI key, not the Together AI key. -/
theorem C9_counterexample :
    envNone.together_api_key = none
    ∧ (create_avatar_image DEFAULT_CONFIG envNone okExtract okChat okImage
        (some "hi") []).fst.message
        = "OpenAI API key not found in environment variables"
    ∧ ("OpenAI API key not found in environment variables" : String)
        ≠ "Together AI API key not found in environment variables" :=
  ⟨rfl, rfl, by decide⟩

/-- C9 amended: both credentials are checked before any document
extraction or provider call: while the Together key is absent (or
empty) the full-avatar entry point performs no external call at all
(its trace is empty) and returns an error envelope, whose message names
the Together AI key provided the OpenAI key is set (the OpenAI-key
check takes precedence otherwise). -/
theorem C9_missing_together_credential (cfg : Config) (env : Env)
    (extract : UploadFile → Except String String)
    (chat : ChatRequest → Except String String)
    (imagePost : ImageRequest → Except String ImageHttpResponse)
    (q : Option String) (files : List UploadFile)
    (hkey : truthy env.together_api_key = false) :
    (create_avatar_image cfg env extract chat imagePost q files).fst.status = "error"
    ∧ (create_avatar_image cfg env extract chat imagePost q files).snd = []
    ∧ (truthy env.openai_api_key = true →
        (create_avatar_image cfg env extract chat imagePost q files).fst.message
          = "Together AI API key not found in environment variables") := by
  by_cases ho : truthy env.openai_api_key = true
  · simp [create_avatar_image, ho, hkey]
  · have ho' : truthy env.openai_api_key = false := by
      cases hcase : truthy env.openai_api_key with
      | false => rfl
      | true => exact absurd hcase ho
    simp [create_avatar_image, ho']

/-- C9 witness: the amended theorem with only the OpenAI key present. -/
theorem C9_missing_together_credential_witness :
    (create_avatar_image DEFAULT_CONFIG envOpenAIOnly okExtract okChat okImage
        (some "hi") []).fst.status = "error"
    ∧ (create_avatar_image DEFAULT_CONFIG envOpenAIOnly okExtract okChat okImage
        (some "hi") []).snd = []
    ∧ (truthy envOpenAIOnly.openai_api_key = true →
        (create_avatar_image DEFAULT_CONFIG envOpenAIOnly okExtract okChat okImage
            (some "hi") []).fst.message
          = "Together AI API key not found in environment variables") :=
  C9_missing_together_credential DEFAULT_CONFIG envOpenAIOnly okExtract okChat okImage
    (some "hi") [] rfl

/-- C10: the synchronous wrapper returns exactly the envelope (and
performs exactly the calls) of the asynchronous entry point applied to
the same text query and no files, under the same environment and the
same provider behaviour. -/
theorem C10_sync_delegates (cfg : Config) (env : Env)
    (extract : UploadFile → Except String String)
    (chat : ChatRequest → Except String String)
    (imagePost : ImageRequest → Except String ImageHttpResponse)
    (q : String) :
    create_avatar_image_sync cfg env extract chat imagePost q
      = create_avatar_image cfg env extract chat imagePost (some q) [] := rfl

end AvatarPipeline
